import Mathlib

/-!
Shallow embedding of the declarative analytics query compiler of the
educational reporting framework.  Two implementations exist in the source:

* `GenericQueryBuilder` (internal/handlers/query_builder.go): cube.dev style
  requests compiled against the `CubeSchema` returned by `GetSchema`.
* `AnalyticsHandler` (analytics handler file): requests compiled against the
  package-level `measureMap` / `dimensionMap`.

Pure string-building functions are translated directly; Go `(string, error)`
returns become `Except String String`; Go maps used only for lookup become
association lists; Go `nil`-able pointers become `Option`.
-/

namespace Reporting

/-- Go `strings.ReplaceAll(s, ".", "_")` for the alias rule (the pattern is a
single character, so a character map is equivalent). -/
def replaceDots (s : String) : String :=
  String.mk (s.data.map (fun c => if c = '.' then '_' else c))

/-- Go `strings.ToUpper` (the compiler only compares the result against the
ASCII words ASC and DESC). -/
def goToUpper (s : String) : String :=
  String.mk (s.data.map Char.toUpper)

/-- Go `strings.HasPrefix`, as a character-list comparison. -/
def goHasStart (s pre : String) : Bool :=
  pre.data.isPrefixOf s.data

/-! ## GenericQueryBuilder: schema (query_builder.go, GetSchema) -/

structure MeasureDefinition where
  type : String
  SQL : String
  table : String
  description : String
deriving DecidableEq, Repr

structure DimensionDefinition where
  type : String
  SQL : String
  table : String
  description : String
deriving DecidableEq, Repr

structure CubeSchema where
  measures : List (String × MeasureDefinition)
  dimensions : List (String × DimensionDefinition)
deriving DecidableEq, Repr

/-- The fixed schema literal from `GetSchema` (Go map literals; only lookup is
ever performed on them, so an association list is a faithful embedding). -/
def getSchema : CubeSchema :=
  { measures :=
      [ ("events.count", ⟨"count", "COUNT(*)", "events", "Total number of events"⟩)
      , ("events.unique_users", ⟨"count", "COUNT(DISTINCT user_id)", "events", "Number of unique users generating events"⟩)
      , ("sessions.count", ⟨"count", "COUNT(*)", "sessions", "Total number of sessions"⟩)
      , ("sessions.avg_duration", ⟨"avg", "AVG(duration_seconds / 60.0)", "sessions", "Average session duration in minutes"⟩)
      , ("sessions.total_duration", ⟨"sum", "SUM(duration_seconds / 60.0)", "sessions", "Total session duration in minutes"⟩)
      , ("users.count", ⟨"count", "COUNT(*)", "users", "Total number of users"⟩)
      , ("users.active_count", ⟨"count", "COUNT(*)", "users", "Number of active users (with recent activity)"⟩)
      , ("quizzes.count", ⟨"count", "COUNT(*)", "quizzes", "Total number of quizzes"⟩)
      , ("quiz_sessions.avg_score", ⟨"avg", "AVG(percentage_score)", "quiz_sessions", "Average quiz score percentage"⟩)
      , ("quiz_sessions.completion_rate", ⟨"avg", "AVG(CASE WHEN is_completed THEN 1.0 ELSE 0.0 END) * 100", "quiz_sessions", "Quiz completion rate percentage"⟩)
      , ("content.count", ⟨"count", "COUNT(*)", "content", "Total number of content items"⟩)
      , ("content.avg_file_size", ⟨"avg", "AVG(file_size_bytes / 1024.0 / 1024.0)", "content", "Average content file size in MB"⟩)
      ]
  , dimensions :=
      [ ("time.date", ⟨"time", "DATE(created_at)", "events", "Date of the event"⟩)
      , ("time.hour", ⟨"time", "DATE_TRUNC('hour', created_at)", "events", "Hour of the event"⟩)
      , ("time.week", ⟨"time", "DATE_TRUNC('week', created_at)", "events", "Week of the event"⟩)
      , ("time.month", ⟨"time", "DATE_TRUNC('month', created_at)", "events", "Month of the event"⟩)
      , ("users.role", ⟨"string", "role", "users", "User role (teacher, student, admin)"⟩)
      , ("users.school_id", ⟨"string", "school_id::text", "users", "School identifier"⟩)
      , ("events.type", ⟨"string", "event_type", "events", "Type of event"⟩)
      , ("events.application", ⟨"string", "application", "events", "Application source (whiteboard, notebook)"⟩)
      , ("sessions.application", ⟨"string", "application", "sessions", "Session application type"⟩)
      , ("content.type", ⟨"string", "content_type", "content", "Type of content"⟩)
      , ("schools.name", ⟨"string", "s.name", "schools", "School name"⟩)
      , ("classrooms.name", ⟨"string", "c.name", "classrooms", "Classroom name"⟩)
      , ("classrooms.grade_level", ⟨"number", "c.grade_level", "classrooms", "Classroom grade level"⟩)
      , ("classrooms.subject", ⟨"string", "c.subject", "classrooms", "Classroom subject"⟩)
      ]
  }

/-- Go `schema.Measures[m]` (comma-ok lookup). -/
def lookupMeasure (schema : CubeSchema) (m : String) : Option MeasureDefinition :=
  schema.measures.lookup m

/-- Go `schema.Dimensions[d]` (comma-ok lookup). -/
def lookupDimension (schema : CubeSchema) (d : String) : Option DimensionDefinition :=
  schema.dimensions.lookup d

/-! ## GenericQueryBuilder: request shape (the anonymous struct in ExecuteQuery) -/

structure GqbTimeDimension where
  dimension : String
  granularity : String
  dateRange : List String
deriving DecidableEq, Repr

structure GqbFilter where
  member : String
  operator : String
  values : List String
deriving DecidableEq, Repr

structure GqbRequest where
  measures : List String
  dimensions : List String
  timeDimensions : List GqbTimeDimension
  filters : List GqbFilter
  order : List (List String)
  limit : Int
deriving DecidableEq, Repr

/-! ## GenericQueryBuilder: helpers (query_builder.go) -/

/-- `determineTables`: the Go `map[string]bool` is used only through membership
tests, so it is embedded as a duplicate-free list of the tables inserted. -/
def gqbDetermineTables (measures dimensions : List String) (schema : CubeSchema) : List String :=
  let t1 := measures.foldl (fun acc m =>
    match lookupMeasure schema m with
    | some d => if acc.contains d.table then acc else acc ++ [d.table]
    | none => acc) []
  dimensions.foldl (fun acc dn =>
    match lookupDimension schema dn with
    | some d => if acc.contains d.table then acc else acc ++ [d.table]
    | none => acc) t1

/-- The priority list in `determinePrimaryTable`. -/
def gqbPriority : List String :=
  ["events", "sessions", "users", "quizzes", "content", "schools", "classrooms"]

/-- `determinePrimaryTable`: first priority table present, default events. -/
def gqbDeterminePrimaryTable (tables : List String) : String :=
  match gqbPriority.find? (fun t => tables.contains t) with
  | some t => t
  | none => "events"

/-- The table-alias map in `buildFromClause`. -/
def gqbAliases : List (String × String) :=
  [("events", "e"), ("sessions", "s"), ("users", "u"), ("quizzes", "q"),
   ("content", "c"), ("schools", "sch"), ("classrooms", "cl")]

/-- The joins accumulated by the `switch primaryTable` block of
`buildFromClause`, in append order. -/
def gqbJoins (primaryTable : String) (tables : List String) : List String :=
  if primaryTable = "events" then
    (if tables.contains "users" then ["LEFT JOIN users u ON e.user_id = u.id"] else []) ++
    (if tables.contains "sessions" then ["LEFT JOIN sessions s ON e.session_id = s.id"] else []) ++
    (if tables.contains "classrooms" then ["LEFT JOIN classrooms cl ON e.classroom_id = cl.id"] else []) ++
    (if tables.contains "schools" then ["LEFT JOIN schools sch ON e.school_id = sch.id"] else [])
  else if primaryTable = "sessions" then
    (if tables.contains "users" then ["LEFT JOIN users u ON s.user_id = u.id"] else []) ++
    (if tables.contains "classrooms" then ["LEFT JOIN classrooms cl ON s.classroom_id = cl.id"] else []) ++
    (if tables.contains "schools" && !tables.contains "classrooms" then
      ["LEFT JOIN classrooms cl ON s.classroom_id = cl.id",
       "LEFT JOIN schools sch ON cl.school_id = sch.id"]
     else if tables.contains "schools" then
      ["LEFT JOIN schools sch ON cl.school_id = sch.id"]
     else [])
  else if primaryTable = "users" then
    (if tables.contains "schools" then ["LEFT JOIN schools sch ON u.school_id = sch.id"] else []) ++
    (if tables.contains "classrooms" then
      ["LEFT JOIN user_classrooms uc ON u.id = uc.user_id",
       "LEFT JOIN classrooms cl ON uc.classroom_id = cl.id"]
     else [])
  else []

/-- `buildFromClause`. -/
def gqbBuildFromClause (primaryTable : String) (tables : List String) : String :=
  let base := match gqbAliases.lookup primaryTable with
    | some a => primaryTable ++ " " ++ a
    | none => primaryTable
  let joins := gqbJoins primaryTable tables
  if joins.length > 0 then base ++ " " ++ String.intercalate " " joins else base

/-- `buildFilterCondition`: arity or operator mismatches fall through to the
final `return ""`. -/
def gqbBuildFilterCondition (sql operator : String) (values : List String) : String :=
  if operator = "equals" then
    match values with
    | [v] => sql ++ " = '" ++ v ++ "'"
    | _ => ""
  else if operator = "in" then
    match values with
    | [] => ""
    | vs => sql ++ " IN (" ++ String.intercalate ", " (vs.map (fun v => "'" ++ v ++ "'")) ++ ")"
  else if operator = "gt" then
    match values with
    | [v] => sql ++ " > '" ++ v ++ "'"
    | _ => ""
  else if operator = "gte" then
    match values with
    | [v] => sql ++ " >= '" ++ v ++ "'"
    | _ => ""
  else if operator = "lt" then
    match values with
    | [v] => sql ++ " < '" ++ v ++ "'"
    | _ => ""
  else if operator = "lte" then
    match values with
    | [v] => sql ++ " <= '" ++ v ++ "'"
    | _ => ""
  else if operator = "contains" then
    match values with
    | [v] => sql ++ " ILIKE '%" ++ v ++ "%'"
    | _ => ""
  else ""

/-- The per-filter contribution of `buildWhereClause`: skipped when the member
does not resolve or when `buildFilterCondition` returns the empty string. -/
def gqbFilterConditionOpt (schema : CubeSchema) (f : GqbFilter) : Option String :=
  match lookupDimension schema f.member with
  | some d =>
    let c := gqbBuildFilterCondition d.SQL f.operator f.values
    if c = "" then none else some c
  | none => none

/-- The per-time-dimension contribution of `buildWhereClause` (date range of
length two becomes a BETWEEN predicate). -/
def gqbTimeConditionOpt (schema : CubeSchema) (td : GqbTimeDimension) : Option String :=
  match lookupDimension schema td.dimension with
  | some d =>
    match td.dateRange with
    | [a, b] => some (d.SQL ++ " BETWEEN '" ++ a ++ "' AND '" ++ b ++ "'")
    | _ => none
  | none => none

/-- The condition list built by `buildWhereClause` (filter conditions in
order, then time-range conditions). -/
def gqbWhereConditions (filters : List GqbFilter) (tds : List GqbTimeDimension)
    (schema : CubeSchema) : List String :=
  let cs := filters.foldl (fun acc f =>
    match gqbFilterConditionOpt schema f with
    | some c => acc ++ [c]
    | none => acc) []
  tds.foldl (fun acc td =>
    match gqbTimeConditionOpt schema td with
    | some c => acc ++ [c]
    | none => acc) cs

/-- `buildWhereClause`. -/
def gqbBuildWhereClause (filters : List GqbFilter) (tds : List GqbTimeDimension)
    (schema : CubeSchema) : String :=
  let conditions := gqbWhereConditions filters tds schema
  if conditions.length = 0 then "" else String.intercalate " AND " conditions

/-- The granularity switch shared by `buildSQL` and `buildGroupByClause`:
day, week, month and hour truncate; anything else falls through to the raw
dimension expression. -/
def gqbTimeSql (sql granularity : String) : String :=
  if granularity = "day" then "DATE(" ++ sql ++ ")"
  else if granularity = "week" then "DATE_TRUNC('week', " ++ sql ++ ")"
  else if granularity = "month" then "DATE_TRUNC('month', " ++ sql ++ ")"
  else if granularity = "hour" then "DATE_TRUNC('hour', " ++ sql ++ ")"
  else sql

/-- The GROUP BY entry list of `buildGroupByClause` (dimensions in order, then
time dimensions in order; unresolved identifiers are skipped). -/
def gqbGroupByEntries (dimensions : List String) (tds : List GqbTimeDimension)
    (schema : CubeSchema) : List String :=
  let g1 := dimensions.foldl (fun acc dn =>
    match lookupDimension schema dn with
    | some d => acc ++ [d.SQL]
    | none => acc) []
  tds.foldl (fun acc td =>
    match lookupDimension schema td.dimension with
    | some d => acc ++ [gqbTimeSql d.SQL td.granularity]
    | none => acc) g1

/-- `buildGroupByClause`. -/
def gqbBuildGroupByClause (dimensions : List String) (tds : List GqbTimeDimension)
    (schema : CubeSchema) : String :=
  let gs := gqbGroupByEntries dimensions tds schema
  if gs.length = 0 then "" else String.intercalate ", " gs

/-- `buildOrderByClause`: items shorter than two entries or with a direction
other than ASC/DESC are dropped. -/
def gqbBuildOrderByClause (order : List (List String)) : String :=
  if order.length = 0 then ""
  else
    let cs := order.foldl (fun acc item =>
      match item with
      | c :: d :: _ =>
        let column := replaceDots c
        let direction := goToUpper d
        if direction = "ASC" || direction = "DESC" then acc ++ [column ++ " " ++ direction]
        else acc
      | _ => acc) []
    String.intercalate ", " cs

/-- The measure part of the SELECT list in `buildSQL` (unknown measures are
silently skipped). -/
def gqbMeasureSelects (measures : List String) (schema : CubeSchema) : List String :=
  measures.foldl (fun acc m =>
    match lookupMeasure schema m with
    | some d => acc ++ [d.SQL ++ " AS " ++ replaceDots m]
    | none => acc) []

/-- The dimension part of the SELECT list in `buildSQL`. -/
def gqbDimensionSelects (dimensions : List String) (schema : CubeSchema) : List String :=
  dimensions.foldl (fun acc dn =>
    match lookupDimension schema dn with
    | some d => acc ++ [d.SQL ++ " AS " ++ replaceDots dn]
    | none => acc) []

/-- The time-dimension part of the SELECT list in `buildSQL`. -/
def gqbTimeSelects (tds : List GqbTimeDimension) (schema : CubeSchema) : List String :=
  tds.foldl (fun acc td =>
    match lookupDimension schema td.dimension with
    | some d =>
      acc ++ [gqbTimeSql d.SQL td.granularity ++ " AS " ++
        replaceDots td.dimension ++ "_" ++ td.granularity]
    | none => acc) []

/-- `buildSQL`: the only error is an empty combined select list. -/
def gqbBuildSQL (req : GqbRequest) (schema : CubeSchema) : Except String String :=
  let tables := gqbDetermineTables req.measures req.dimensions schema
  let primaryTable := gqbDeterminePrimaryTable tables
  let selectClauses := gqbMeasureSelects req.measures schema ++
    gqbDimensionSelects req.dimensions schema ++ gqbTimeSelects req.timeDimensions schema
  if selectClauses.length = 0 then
    Except.error "no valid measures or dimensions specified"
  else
    let fromClause := gqbBuildFromClause primaryTable tables
    let whereClause := gqbBuildWhereClause req.filters req.timeDimensions schema
    let groupByClause := gqbBuildGroupByClause req.dimensions req.timeDimensions schema
    let orderByClause := gqbBuildOrderByClause req.order
    let limitClause := if req.limit > 0 then "LIMIT " ++ toString req.limit else ""
    let query := "SELECT " ++ String.intercalate ", " selectClauses ++ " FROM " ++ fromClause
    let query := if whereClause ≠ "" then query ++ " WHERE " ++ whereClause else query
    let query := if groupByClause ≠ "" then query ++ " GROUP BY " ++ groupByClause else query
    let query := if orderByClause ≠ "" then query ++ " ORDER BY " ++ orderByClause else query
    let query := if limitClause ≠ "" then query ++ " " ++ limitClause else query
    Except.ok query

/-! ## AnalyticsHandler (the analytics handler source file) -/

/-- The package-level `measureMap` literal. -/
def measureMap : List (String × String) :=
  [ ("quiz_responses.average_score", "AVG(CASE WHEN qr.points_earned IS NOT NULL THEN (qr.points_earned / qq.points) * 100 END)")
  , ("quiz_responses.completion_rate", "COUNT(DISTINCT qr.student_id) * 100.0 / COUNT(DISTINCT e.user_id)")
  , ("quiz_responses.total_responses", "COUNT(qr.id)")
  , ("sessions.total_duration", "SUM(s.duration_seconds) / 60.0")
  , ("sessions.average_duration", "AVG(s.duration_seconds) / 60.0")
  , ("sessions.count", "COUNT(s.id)")
  , ("events.count", "COUNT(e.id)")
  , ("users.active_count", "COUNT(DISTINCT u.id)")
  , ("classrooms.engagement_score", "AVG(ca.average_engagement_score)")
  ]

/-- The package-level `dimensionMap` literal. -/
def dimensionMap : List (String × String) :=
  [ ("users.role", "u.role")
  , ("classrooms.subject", "c.subject")
  , ("schools.name", "sch.name")
  , ("time.date", "DATE(s.start_time)")
  , ("time.hour", "EXTRACT(HOUR FROM s.start_time)")
  , ("time.day_of_week", "EXTRACT(DOW FROM s.start_time)")
  , ("applications.type", "s.application")
  , ("quiz.difficulty", "q.status")
  ]

/-- The Go `interface{}` filter value: the analytics endpoint receives either
a JSON scalar (rendered by the `%v` verb as its text) or a JSON array. -/
inductive FilterValue where
  | str (s : String)
  | arr (vs : List String)
deriving DecidableEq, Repr

/-- Go `fmt.Sprintf` rendering with the `%v` verb. -/
def renderValue : FilterValue → String
  | .str s => s
  | .arr vs => "[" ++ String.intercalate " " vs ++ "]"

structure AhFilter where
  dimension : String
  operator : String
  value : FilterValue
deriving DecidableEq, Repr

structure AhTimeDimension where
  dimension : String
  granularity : String
deriving DecidableEq, Repr

structure AhQueryRequest where
  measures : List String
  dimensions : List String
  filters : List AhFilter
  timeDimension : Option AhTimeDimension
  limit : Option Int
  offset : Option Int
deriving DecidableEq, Repr

/-- `AnalyticsHandler.buildTimeDimension`: a missing map entry is detected as
the zero value (empty string); the six granularities truncate, anything else
is an error naming the granularity. -/
def ahBuildTimeDimension (td : AhTimeDimension) : Except String String :=
  let base := (dimensionMap.lookup td.dimension).getD ""
  if base = "" then Except.error ("unknown time dimension: " ++ td.dimension)
  else if td.granularity = "hour" then Except.ok ("DATE_TRUNC('hour', " ++ base ++ ")")
  else if td.granularity = "day" then Except.ok ("DATE_TRUNC('day', " ++ base ++ ")")
  else if td.granularity = "week" then Except.ok ("DATE_TRUNC('week', " ++ base ++ ")")
  else if td.granularity = "month" then Except.ok ("DATE_TRUNC('month', " ++ base ++ ")")
  else if td.granularity = "quarter" then Except.ok ("DATE_TRUNC('quarter', " ++ base ++ ")")
  else if td.granularity = "year" then Except.ok ("DATE_TRUNC('year', " ++ base ++ ")")
  else Except.error ("unsupported time granularity: " ++ td.granularity)

/-- `AnalyticsHandler.buildFilterCondition`. -/
def ahBuildFilterCondition (f : AhFilter) : Except String String :=
  match dimensionMap.lookup f.dimension with
  | none => Except.error ("unknown filter dimension: " ++ f.dimension)
  | some dim =>
    if f.operator = "eq" || f.operator = "=" then
      Except.ok (dim ++ " = '" ++ renderValue f.value ++ "'")
    else if f.operator = "ne" || f.operator = "!=" then
      Except.ok (dim ++ " != '" ++ renderValue f.value ++ "'")
    else if f.operator = "gt" || f.operator = ">" then
      Except.ok (dim ++ " > '" ++ renderValue f.value ++ "'")
    else if f.operator = "gte" || f.operator = ">=" then
      Except.ok (dim ++ " >= '" ++ renderValue f.value ++ "'")
    else if f.operator = "lt" || f.operator = "<" then
      Except.ok (dim ++ " < '" ++ renderValue f.value ++ "'")
    else if f.operator = "lte" || f.operator = "<=" then
      Except.ok (dim ++ " <= '" ++ renderValue f.value ++ "'")
    else if f.operator = "in" then
      match f.value with
      | .arr vs =>
        Except.ok (dim ++ " IN (" ++
          String.intercalate ", " (vs.map (fun v => "'" ++ v ++ "'")) ++ ")")
      | _ => Except.error "'in' operator requires array value"
    else if f.operator = "contains" then
      Except.ok (dim ++ " ILIKE '%" ++ renderValue f.value ++ "%'")
    else Except.error ("unsupported operator: " ++ f.operator)

/-- The condition list built by `AnalyticsHandler.buildWhereClause` (first
error aborts). -/
def ahConditions : List AhFilter → Except String (List String)
  | [] => Except.ok []
  | f :: rest =>
    match ahBuildFilterCondition f with
    | Except.error e => Except.error e
    | Except.ok c =>
      match ahConditions rest with
      | Except.error e => Except.error e
      | Except.ok cs => Except.ok (c :: cs)

/-- `AnalyticsHandler.buildWhereClause`. -/
def ahBuildWhereClause (filters : List AhFilter) : Except String String :=
  if filters.length = 0 then Except.ok ""
  else
    match ahConditions filters with
    | Except.error e => Except.error e
    | Except.ok cs => Except.ok (String.intercalate " AND " cs)

/-- The needs-flags of `AnalyticsHandler.buildFromClause` (each flag is an
or over the request's identifiers, matching the two accumulation loops;
`needsQuizzes` is declared in the source but never set). -/
structure AhNeeds where
  quizResponses : Bool
  quizQuestions : Bool
  quizzes : Bool
  sessions : Bool
  events : Bool
  users : Bool
  classrooms : Bool
  schools : Bool
  classroomAnalytics : Bool
deriving DecidableEq, Repr

def ahNeeds (req : AhQueryRequest) : AhNeeds :=
  { quizResponses := req.measures.any (fun m => goHasStart m "quiz_responses.")
  , quizQuestions := req.measures.any (fun m => goHasStart m "quiz_responses.")
  , quizzes := false
  , sessions := req.measures.any (fun m => goHasStart m "sessions.") ||
      req.dimensions.any (fun d => goHasStart d "time." || goHasStart d "applications.")
  , events := req.measures.any (fun m => goHasStart m "events.")
  , users := req.measures.any (fun m => goHasStart m "users.") ||
      req.dimensions.any (fun d => goHasStart d "users.")
  , classrooms := req.measures.any (fun m => goHasStart m "classrooms.") ||
      req.dimensions.any (fun d => goHasStart d "classrooms.")
  , schools := req.dimensions.any (fun d => goHasStart d "schools.")
  , classroomAnalytics := req.measures.any (fun m => goHasStart m "classrooms.")
  }

/-- `AnalyticsHandler.buildFromClause`: base table chosen by the if/else
chain, joins appended per branch. -/
def ahBuildFromClause (req : AhQueryRequest) : String :=
  let n := ahNeeds req
  let (baseTable, joins) :=
    if n.sessions then
      ("sessions s",
        (if n.users then ["LEFT JOIN users u ON s.user_id = u.id"] else []) ++
        (if n.classrooms then ["LEFT JOIN classrooms c ON s.classroom_id = c.id"] else []) ++
        (if n.schools then ["LEFT JOIN schools sch ON c.school_id = sch.id"] else []) ++
        (if n.events then ["LEFT JOIN events e ON s.id = e.session_id"] else []))
    else if n.quizResponses then
      ("quiz_responses qr",
        (if n.quizQuestions then ["JOIN quiz_questions qq ON qr.question_id = qq.id"] else []) ++
        (if n.quizzes then ["JOIN quizzes q ON qr.quiz_id = q.id"] else []) ++
        (if n.users then ["LEFT JOIN users u ON qr.student_id = u.id"] else []) ++
        (if n.classrooms then ["LEFT JOIN classrooms c ON q.classroom_id = c.id"] else []))
    else if n.events then
      ("events e",
        (if n.users then ["LEFT JOIN users u ON e.user_id = u.id"] else []) ++
        (if n.classrooms then ["LEFT JOIN classrooms c ON e.classroom_id = c.id"] else []))
    else if n.classroomAnalytics then
      ("classroom_analytics ca",
        (if n.classrooms then ["JOIN classrooms c ON ca.classroom_id = c.id"] else []))
    else
      ("users u",
        (if n.classrooms then
          ["LEFT JOIN enrollments en ON u.id = en.user_id",
           "LEFT JOIN classrooms c ON en.classroom_id = c.id"]
         else []))
  if joins.length > 0 then baseTable ++ " " ++ String.intercalate " " joins else baseTable

/-- The GROUP BY entry list of `AnalyticsHandler.buildGroupByClause`: the
time expression is appended with its error discarded (the Go code ignores the
second return value, so a failed truncation contributes the zero value). -/
def ahGroupByEntries (dimensions : List String) (td : Option AhTimeDimension) : List String :=
  let gs := dimensions.foldl (fun acc d =>
    match dimensionMap.lookup d with
    | some e => acc ++ [e]
    | none => acc) []
  match td with
  | some t =>
    gs ++ [match ahBuildTimeDimension t with
           | Except.ok e => e
           | Except.error _ => ""]
  | none => gs

/-- `AnalyticsHandler.buildGroupByClause`. -/
def ahBuildGroupByClause (dimensions : List String) (td : Option AhTimeDimension) : String :=
  let gs := ahGroupByEntries dimensions td
  if gs.length = 0 then "" else String.intercalate ", " gs

/-- The measure select entries of `AnalyticsHandler.buildQuery` (first
unknown measure aborts with an error naming it). -/
def ahMeasureSelects : List String → Except String (List String)
  | [] => Except.ok []
  | m :: rest =>
    match measureMap.lookup m with
    | some e =>
      match ahMeasureSelects rest with
      | Except.error err => Except.error err
      | Except.ok r => Except.ok ((e ++ " as \"" ++ m ++ "\"") :: r)
    | none => Except.error ("unknown measure: " ++ m)

/-- The dimension select entries of `AnalyticsHandler.buildQuery`. -/
def ahDimensionSelects : List String → Except String (List String)
  | [] => Except.ok []
  | d :: rest =>
    match dimensionMap.lookup d with
    | some e =>
      match ahDimensionSelects rest with
      | Except.error err => Except.error err
      | Except.ok r => Except.ok ((e ++ " as \"" ++ d ++ "\"") :: r)
    | none => Except.error ("unknown dimension: " ++ d)

/-- The ORDER BY logic inlined in `AnalyticsHandler.buildQuery`. -/
def ahOrderByClause : Option AhTimeDimension → String
  | some _ => "ORDER BY time ASC"
  | none => ""

/-- The LIMIT/OFFSET logic inlined in `AnalyticsHandler.buildQuery` (offset is
rendered only when a limit is present). -/
def ahLimitClause (limit offset : Option Int) : String :=
  match limit with
  | some l =>
    "LIMIT " ++ toString l ++
      (match offset with
       | some o => " OFFSET " ++ toString o
       | none => "")
  | none => ""

/-- `AnalyticsHandler.buildQuery`. -/
def ahBuildQuery (req : AhQueryRequest) : Except String String :=
  match ahMeasureSelects req.measures with
  | Except.error e => Except.error e
  | Except.ok ms =>
  match ahDimensionSelects req.dimensions with
  | Except.error e => Except.error e
  | Except.ok ds =>
  let timeSel : Except String (List String) :=
    match req.timeDimension with
    | some td =>
      match ahBuildTimeDimension td with
      | Except.error e => Except.error e
      | Except.ok e => Except.ok [e ++ " as \"time\""]
    | none => Except.ok []
  match timeSel with
  | Except.error e => Except.error e
  | Except.ok ts =>
  let selectClause := String.intercalate ", " (ms ++ ds ++ ts)
  let fromClause := ahBuildFromClause req
  match ahBuildWhereClause req.filters with
  | Except.error e => Except.error e
  | Except.ok whereClause =>
  let groupByClause := ahBuildGroupByClause req.dimensions req.timeDimension
  let orderByClause := ahOrderByClause req.timeDimension
  let limitClause := ahLimitClause req.limit req.offset
  let query := "SELECT " ++ selectClause ++ " FROM " ++ fromClause
  let query := if whereClause ≠ "" then query ++ " WHERE " ++ whereClause else query
  let query := if groupByClause ≠ "" then query ++ " GROUP BY " ++ groupByClause else query
  let query := if orderByClause ≠ "" then query ++ " " ++ orderByClause else query
  let query := if limitClause ≠ "" then query ++ " " ++ limitClause else query
  Except.ok query

/-- A join fragment is a LEFT JOIN when the literal words LEFT JOIN open it. -/
def startsWithLeftJoin (j : String) : Bool :=
  "LEFT JOIN".data.isPrefixOf j.data

/-! ## Sample requests used by the concrete theorems -/

/-- The all-empty GenericQueryBuilder request. -/
def gqbEmptyReq : GqbRequest :=
  { measures := [], dimensions := [], timeDimensions := [], filters := [],
    order := [], limit := 0 }

/-- The all-empty AnalyticsHandler request. -/
def ahEmptyReq : AhQueryRequest :=
  { measures := [], dimensions := [], filters := [], timeDimension := none,
    limit := none, offset := none }

end Reporting

namespace Reporting

/-! ## Helper lemmas (shared) -/

/-- A fold whose body appends an optional contribution per element is an
appended `filterMap`. -/
theorem foldlOptAux {α β : Type} (f : α → Option β) (g : List β → α → List β)
    (hg : ∀ acc x, g acc x = acc ++ (f x).toList) :
    ∀ (l : List α) (init : List β), l.foldl g init = init ++ l.filterMap f := by
  intro l
  induction l with
  | nil => intro init; simp
  | cons x xs ih =>
    intro init
    rw [List.foldl_cons, hg]
    cases hfx : f x <;> simp [hfx, ih, List.filterMap_cons]

/-- A value found by association-list lookup is one of the stored values. -/
theorem lookup_mem_snd {α β : Type} [BEq α] [LawfulBEq α] :
    ∀ (l : List (α × β)) (k : α) (v : β), l.lookup k = some v → v ∈ l.map Prod.snd := by
  intro l
  induction l with
  | nil => intro k v h; simp [List.lookup] at h
  | cons p ps ih =>
    intro k v h
    rw [List.lookup] at h
    cases hk : (k == p.1) with
    | true =>
      rw [hk] at h
      cases h
      exact List.mem_map_of_mem _ (List.mem_cons_self _ _)
    | false =>
      rw [hk] at h
      exact List.mem_cons_of_mem _ (ih k v h)

/-- `gqbMeasureSelects` as a `filterMap`. -/
theorem gqbMeasureSelects_eq (measures : List String) (schema : CubeSchema) :
    gqbMeasureSelects measures schema =
      measures.filterMap (fun m =>
        (lookupMeasure schema m).map (fun d => d.SQL ++ " AS " ++ replaceDots m)) := by
  have h1 := foldlOptAux
    (fun m => (lookupMeasure schema m).map (fun d => d.SQL ++ " AS " ++ replaceDots m))
    (fun acc m =>
      match lookupMeasure schema m with
      | some d => acc ++ [d.SQL ++ " AS " ++ replaceDots m]
      | none => acc)
    (by intro acc x; cases h : lookupMeasure schema x <;> simp [h])
  unfold gqbMeasureSelects
  simp [h1]

/-- The GROUP BY entries of the GenericQueryBuilder as two `filterMap`s:
resolved dimension expressions in order, then time expressions in order. -/
theorem gqbGroupByEntries_eq (dimensions : List String) (tds : List GqbTimeDimension)
    (schema : CubeSchema) :
    gqbGroupByEntries dimensions tds schema =
      dimensions.filterMap (fun d => (lookupDimension schema d).map (fun dd => dd.SQL)) ++
      tds.filterMap (fun td =>
        (lookupDimension schema td.dimension).map
          (fun dd => gqbTimeSql dd.SQL td.granularity)) := by
  have h1 := foldlOptAux (fun d => (lookupDimension schema d).map (fun dd => dd.SQL))
    (fun acc dn =>
      match lookupDimension schema dn with
      | some d => acc ++ [d.SQL]
      | none => acc)
    (by intro acc x; cases h : lookupDimension schema x <;> simp [h])
  have h2 := foldlOptAux (fun td : GqbTimeDimension =>
      (lookupDimension schema td.dimension).map (fun dd => gqbTimeSql dd.SQL td.granularity))
    (fun acc td =>
      match lookupDimension schema td.dimension with
      | some d => acc ++ [gqbTimeSql d.SQL td.granularity]
      | none => acc)
    (by intro acc x; cases h : lookupDimension schema x.dimension <;> simp [h])
  unfold gqbGroupByEntries
  simp [h1, h2]

/-- The AnalyticsHandler GROUP BY entries: resolved dimension expressions in
order, then the (error-suppressed) time expression. -/
theorem ahGroupByEntries_eq (dimensions : List String) (td : Option AhTimeDimension) :
    ahGroupByEntries dimensions td =
      dimensions.filterMap (fun d => dimensionMap.lookup d) ++
      (match td with
       | some t =>
         [match ahBuildTimeDimension t with
          | Except.ok e => e
          | Except.error _ => ""]
       | none => []) := by
  have h1 := foldlOptAux (fun d => dimensionMap.lookup d)
    (fun acc d =>
      match dimensionMap.lookup d with
      | some e => acc ++ [e]
      | none => acc)
    (by intro acc x; cases h : dimensionMap.lookup x <;> simp [h])
  unfold ahGroupByEntries
  cases td <;> simp [h1]

/-- `ahMeasureSelects` fails, naming an unknown measure, whenever one of the
requested measures does not resolve. -/
theorem ahMeasureSelects_unknown :
    ∀ l : List String, (∃ m ∈ l, measureMap.lookup m = none) →
      ∃ m, m ∈ l ∧ measureMap.lookup m = none ∧
        ahMeasureSelects l = Except.error ("unknown measure: " ++ m) := by
  intro l
  induction l with
  | nil => rintro ⟨m, hm, -⟩; simp at hm
  | cons x xs ih =>
    rintro ⟨m, hm, hnone⟩
    cases hx : measureMap.lookup x with
    | none =>
      exact ⟨x, List.mem_cons_self _ _, hx, by simp [ahMeasureSelects, hx]⟩
    | some e =>
      have hmx : m ∈ xs := by
        rcases List.mem_cons.1 hm with h | h
        · subst h; rw [hx] at hnone; simp at hnone
        · exact h
      obtain ⟨m', hm', hn', heq⟩ := ih ⟨m, hmx, hnone⟩
      exact ⟨m', List.mem_cons_of_mem _ hm', hn', by simp [ahMeasureSelects, hx, heq]⟩

/-- `ahMeasureSelects` succeeds when every requested measure resolves. -/
theorem ahMeasureSelects_known :
    ∀ l : List String, (∀ m ∈ l, (measureMap.lookup m).isSome) →
      ∃ ms, ahMeasureSelects l = Except.ok ms := by
  intro l
  induction l with
  | nil => intro _; exact ⟨[], rfl⟩
  | cons x xs ih =>
    intro h
    have hx := h x (List.mem_cons_self _ _)
    cases hxl : measureMap.lookup x with
    | none => rw [hxl] at hx; simp at hx
    | some e =>
      obtain ⟨ms, hms⟩ := ih (fun m hm => h m (List.mem_cons_of_mem _ hm))
      exact ⟨(e ++ " as \"" ++ x ++ "\"") :: ms, by simp [ahMeasureSelects, hxl, hms]⟩

/-- `ahDimensionSelects` fails, naming an unknown dimension, whenever one of
the requested dimensions does not resolve. -/
theorem ahDimensionSelects_unknown :
    ∀ l : List String, (∃ d ∈ l, dimensionMap.lookup d = none) →
      ∃ d, d ∈ l ∧ dimensionMap.lookup d = none ∧
        ahDimensionSelects l = Except.error ("unknown dimension: " ++ d) := by
  intro l
  induction l with
  | nil => rintro ⟨d, hd, -⟩; simp at hd
  | cons x xs ih =>
    rintro ⟨d, hd, hnone⟩
    cases hx : dimensionMap.lookup x with
    | none =>
      exact ⟨x, List.mem_cons_self _ _, hx, by simp [ahDimensionSelects, hx]⟩
    | some e =>
      have hdx : d ∈ xs := by
        rcases List.mem_cons.1 hd with h | h
        · subst h; rw [hx] at hnone; simp at hnone
        · exact h
      obtain ⟨d', hd', hn', heq⟩ := ih ⟨d, hdx, hnone⟩
      exact ⟨d', List.mem_cons_of_mem _ hd', hn', by simp [ahDimensionSelects, hx, heq]⟩

/-- Skipping an unknown measure leaves the GenericQueryBuilder select list
unchanged. -/
theorem gqbMeasureSelects_skip (m : String) (ms : List String) (schema : CubeSchema)
    (h : lookupMeasure schema m = none) :
    gqbMeasureSelects (m :: ms) schema = gqbMeasureSelects ms schema := by
  simp [gqbMeasureSelects, h]

/-- Skipping an unknown dimension leaves the GenericQueryBuilder select list
unchanged. -/
theorem gqbDimensionSelects_skip (d : String) (ds : List String) (schema : CubeSchema)
    (h : lookupDimension schema d = none) :
    gqbDimensionSelects (d :: ds) schema = gqbDimensionSelects ds schema := by
  simp [gqbDimensionSelects, h]

/-- An unknown measure contributes no table. -/
theorem gqbDetermineTables_skipMeasure (m : String) (ms dims : List String)
    (schema : CubeSchema) (h : lookupMeasure schema m = none) :
    gqbDetermineTables (m :: ms) dims schema = gqbDetermineTables ms dims schema := by
  simp [gqbDetermineTables, h]

/-- An unknown dimension contributes no table. -/
theorem gqbDetermineTables_skipDim (d : String) (ms dims : List String)
    (schema : CubeSchema) (h : lookupDimension schema d = none) :
    gqbDetermineTables ms (d :: dims) schema = gqbDetermineTables ms dims schema := by
  simp [gqbDetermineTables, h]

/-- An unknown dimension contributes no GROUP BY entry. -/
theorem gqbGroupByEntries_skipDim (d : String) (dims : List String)
    (tds : List GqbTimeDimension) (schema : CubeSchema)
    (h : lookupDimension schema d = none) :
    gqbGroupByEntries (d :: dims) tds schema = gqbGroupByEntries dims tds schema := by
  simp [gqbGroupByEntries, h]

/-! ## Claim theorems -/

/-- C1 (counterexample): a request containing the unresolvable measure
identifier bogus.m compiles successfully in `GenericQueryBuilder.buildSQL`
(the unknown identifier is silently skipped and a query string is returned),
contradicting the claim that compilation fails with an UnknownIdentifier
error for every unresolved identifier. -/
theorem c1_counterexample :
    gqbBuildSQL { gqbEmptyReq with measures := ["bogus.m", "events.count"] } getSchema =
      Except.ok "SELECT COUNT(*) AS events_count FROM events e" := by rfl

/-- C1 (amended): `AnalyticsHandler.buildQuery` fails with an error naming an
unresolvable identifier whenever a measure or dimension does not resolve, and
returns no query; `GenericQueryBuilder.buildSQL` instead silently skips an
unknown measure or dimension, compiling exactly as if it were absent. -/
theorem c1_unknown_identifier_amended :
    (∀ req : AhQueryRequest, (∃ m ∈ req.measures, measureMap.lookup m = none) →
      ∃ m, m ∈ req.measures ∧ measureMap.lookup m = none ∧
        ahBuildQuery req = Except.error ("unknown measure: " ++ m)) ∧
    (∀ req : AhQueryRequest, (∀ m ∈ req.measures, (measureMap.lookup m).isSome) →
      (∃ d ∈ req.dimensions, dimensionMap.lookup d = none) →
      ∃ d, d ∈ req.dimensions ∧ dimensionMap.lookup d = none ∧
        ahBuildQuery req = Except.error ("unknown dimension: " ++ d)) ∧
    (∀ (req : GqbRequest) (schema : CubeSchema) (m : String),
      lookupMeasure schema m = none →
      gqbBuildSQL { req with measures := m :: req.measures } schema =
        gqbBuildSQL req schema) ∧
    (∀ (req : GqbRequest) (schema : CubeSchema) (d : String),
      lookupDimension schema d = none →
      gqbBuildSQL { req with dimensions := d :: req.dimensions } schema =
        gqbBuildSQL req schema) := by
  refine ⟨?_, ?_, ?_, ?_⟩
  · intro req h
    obtain ⟨m, hm, hn, heq⟩ := ahMeasureSelects_unknown _ h
    exact ⟨m, hm, hn, by simp [ahBuildQuery, heq]⟩
  · intro req h1 h2
    obtain ⟨ms, hms⟩ := ahMeasureSelects_known _ h1
    obtain ⟨d, hd, hn, heq⟩ := ahDimensionSelects_unknown _ h2
    exact ⟨d, hd, hn, by simp [ahBuildQuery, hms, heq]⟩
  · intro req schema m h
    have h1 := gqbMeasureSelects_skip m req.measures schema h
    have h2 := gqbDetermineTables_skipMeasure m req.measures req.dimensions schema h
    simp [gqbBuildSQL, h1, h2]
  · intro req schema d h
    have h1 := gqbDimensionSelects_skip d req.dimensions schema h
    have h2 := gqbDetermineTables_skipDim d req.measures req.dimensions schema h
    have h3 := gqbGroupByEntries_skipDim d req.dimensions req.timeDimensions schema h
    have h4 : gqbBuildGroupByClause (d :: req.dimensions) req.timeDimensions schema =
        gqbBuildGroupByClause req.dimensions req.timeDimensions schema := by
      simp [gqbBuildGroupByClause, h3]
    simp [gqbBuildSQL, h1, h2, h4]

/-- C1 (witness): applying the amended theorem to a request naming only the
unknown measure bogus.m. -/
theorem c1_witness :
    ahBuildQuery { ahEmptyReq with measures := ["bogus.m"] } =
      Except.error "unknown measure: bogus.m" := by
  obtain ⟨m, hm, -, heq⟩ := c1_unknown_identifier_amended.1
    { ahEmptyReq with measures := ["bogus.m"] } ⟨"bogus.m", by simp [ahEmptyReq], by rfl⟩
  have hm' : m = "bogus.m" := by simpa [ahEmptyReq] using hm
  rw [hm'] at heq
  exact heq

/-- C5: `determinePrimaryTable` picks the first table of the fixed priority
list [events, sessions, users, quizzes, content, schools, classrooms] that is
present in the required set, falls back to events when none is present, and
is deterministic. -/
theorem c5_primary_table_priority :
    (∀ ts : List String, "events" ∈ ts →
      gqbDeterminePrimaryTable ts = "events") ∧
    (∀ ts : List String, "events" ∉ ts → "sessions" ∈ ts →
      gqbDeterminePrimaryTable ts = "sessions") ∧
    (∀ ts : List String, "events" ∉ ts → "sessions" ∉ ts →
      "users" ∈ ts → gqbDeterminePrimaryTable ts = "users") ∧
    (∀ ts : List String, "events" ∉ ts → "sessions" ∉ ts →
      "users" ∉ ts → "quizzes" ∈ ts →
      gqbDeterminePrimaryTable ts = "quizzes") ∧
    (∀ ts : List String, "events" ∉ ts → "sessions" ∉ ts →
      "users" ∉ ts → "quizzes" ∉ ts →
      "content" ∈ ts → gqbDeterminePrimaryTable ts = "content") ∧
    (∀ ts : List String, "events" ∉ ts → "sessions" ∉ ts →
      "users" ∉ ts → "quizzes" ∉ ts →
      "content" ∉ ts → "schools" ∈ ts →
      gqbDeterminePrimaryTable ts = "schools") ∧
    (∀ ts : List String, "events" ∉ ts → "sessions" ∉ ts →
      "users" ∉ ts → "quizzes" ∉ ts →
      "content" ∉ ts → "schools" ∉ ts →
      "classrooms" ∈ ts → gqbDeterminePrimaryTable ts = "classrooms") ∧
    (∀ ts : List String, (∀ p ∈ gqbPriority, p ∉ ts) →
      gqbDeterminePrimaryTable ts = "events") ∧
    (∀ ts : List String, gqbDeterminePrimaryTable ts = gqbDeterminePrimaryTable ts) := by
  refine ⟨?_, ?_, ?_, ?_, ?_, ?_, ?_, ?_, fun _ => rfl⟩
  · intro ts h1
    simp [gqbDeterminePrimaryTable, gqbPriority, List.find?, h1]
  · intro ts h1 h2
    simp [gqbDeterminePrimaryTable, gqbPriority, List.find?, h1, h2]
  · intro ts h1 h2 h3
    simp [gqbDeterminePrimaryTable, gqbPriority, List.find?, h1, h2, h3]
  · intro ts h1 h2 h3 h4
    simp [gqbDeterminePrimaryTable, gqbPriority, List.find?, h1, h2, h3, h4]
  · intro ts h1 h2 h3 h4 h5
    simp [gqbDeterminePrimaryTable, gqbPriority, List.find?, h1, h2, h3, h4, h5]
  · intro ts h1 h2 h3 h4 h5 h6
    simp [gqbDeterminePrimaryTable, gqbPriority, List.find?, h1, h2, h3, h4, h5, h6]
  · intro ts h1 h2 h3 h4 h5 h6 h7
    simp [gqbDeterminePrimaryTable, gqbPriority, List.find?, h1, h2, h3, h4, h5, h6, h7]
  · intro ts h
    have h1 := h "events" (by decide)
    have h2 := h "sessions" (by decide)
    have h3 := h "users" (by decide)
    have h4 := h "quizzes" (by decide)
    have h5 := h "content" (by decide)
    have h6 := h "schools" (by decide)
    have h7 := h "classrooms" (by decide)
    simp [gqbDeterminePrimaryTable, gqbPriority, List.find?, h1, h2, h3, h4, h5, h6, h7]

/-- C5 (witness): applying the priority theorem to the required set
{content, sessions}, where sessions outranks content. -/
theorem c5_witness :
    gqbDeterminePrimaryTable ["content", "sessions"] = "sessions" :=
  c5_primary_table_priority.2.1 ["content", "sessions"] (by decide) (by decide)

/-- C8: compilation is a pure function of the request (and schema): equal
inputs yield identical compiled output, in both builders. -/
theorem c8_determinism :
    (∀ r₁ r₂ : AhQueryRequest, r₁ = r₂ → ahBuildQuery r₁ = ahBuildQuery r₂) ∧
    (∀ (r₁ r₂ : GqbRequest) (schema : CubeSchema), r₁ = r₂ →
      gqbBuildSQL r₁ schema = gqbBuildSQL r₂ schema) :=
  ⟨fun _ _ h => by rw [h], fun _ _ _ h => by rw [h]⟩

/-- C8 (witness): determinism applied to a concrete request. -/
theorem c8_witness :
    ahBuildQuery ahEmptyReq = ahBuildQuery ahEmptyReq ∧
    gqbBuildSQL gqbEmptyReq getSchema = gqbBuildSQL gqbEmptyReq getSchema :=
  ⟨c8_determinism.1 ahEmptyReq ahEmptyReq rfl,
   c8_determinism.2 gqbEmptyReq gqbEmptyReq getSchema rfl⟩

/-- C9 (counterexample): `AnalyticsHandler.buildQuery` on a request with no
measures, no dimensions and no time dimension does not fail: it returns a
query with an empty select list, contradicting the claim that every empty
selection fails with an EmptySelection error. -/
theorem c9_counterexample :
    ahBuildQuery ahEmptyReq = Except.ok "SELECT  FROM users u" := by rfl

/-- C9 (amended): `GenericQueryBuilder.buildSQL` rejects an empty selection
with its empty-selection error, but `AnalyticsHandler.buildQuery` returns a
query whose select list is empty. -/
theorem c9_empty_selection_amended :
    (∀ (req : GqbRequest) (schema : CubeSchema), req.measures = [] →
      req.dimensions = [] → req.timeDimensions = [] →
      gqbBuildSQL req schema = Except.error "no valid measures or dimensions specified") ∧
    ahBuildQuery ahEmptyReq = Except.ok "SELECT  FROM users u" := by
  refine ⟨?_, rfl⟩
  intro req schema h1 h2 h3
  unfold gqbBuildSQL
  rw [h1, h2, h3]
  rfl

/-- C9 (witness): the amended theorem applied to the empty request. -/
theorem c9_witness :
    gqbBuildSQL gqbEmptyReq getSchema =
      Except.error "no valid measures or dimensions specified" :=
  c9_empty_selection_amended.1 gqbEmptyReq getSchema rfl rfl rfl

/-- C2 (counterexample): a request requiring the tables events and content —
content has no join relationship from the primary table events — compiles
successfully, with the content table silently omitted from the FROM clause,
contradicting the claim that such requests fail with an UnreachableJoin
error. -/
theorem c2_counterexample :
    gqbBuildSQL { gqbEmptyReq with measures := ["events.count", "content.count"] } getSchema =
      Except.ok "SELECT COUNT(*) AS events_count, COUNT(*) AS content_count FROM events e" := by
  rfl

/-- C2 (amended): neither resolver can fail: a required table with no known
relationship from the primary table is silently omitted from the FROM clause.
Every GenericQueryBuilder join fragment is a LEFT JOIN, but AnalyticsHandler
also emits inner JOIN fragments (quiz_questions from the quiz_responses
base). -/
theorem c2_joins_amended :
    (∀ (p : String) (ts : List String), (gqbJoins p ts).all startsWithLeftJoin = true) ∧
    gqbBuildFromClause "events" ["events", "content"] = "events e" ∧
    ahBuildFromClause { ahEmptyReq with measures := ["quiz_responses.total_responses"] } =
      "quiz_responses qr JOIN quiz_questions qq ON qr.question_id = qq.id" ∧
    startsWithLeftJoin "JOIN quiz_questions qq ON qr.question_id = qq.id" = false := by
  refine ⟨?_, rfl, rfl, rfl⟩
  intro p ts
  unfold gqbJoins
  split_ifs <;> decide

/-- C3 (counterexample): a filter using the comparison operator with two
values compiles successfully (the filter is silently dropped from the WHERE
clause), contradicting the claim that such arity violations fail with an
ArityError. -/
theorem c3_counterexample :
    gqbBuildSQL { gqbEmptyReq with measures := ["events.count"],
                                   filters := [⟨"users.role", "equals", ["a", "b"]⟩] }
        getSchema =
      Except.ok "SELECT COUNT(*) AS events_count FROM events e" := by rfl

/-- C3 (amended): no arity check ever raises an error. In GenericQueryBuilder
a comparison operator with a value count other than one, and the in operator
with an empty list, render the empty condition, which the WHERE builder
silently omits, and compilation succeeds; in AnalyticsHandler the in operator
with an empty array succeeds, rendering an empty IN list. -/
theorem c3_arity_amended :
    (∀ (sql : String) (vals : List String), vals.length ≠ 1 →
      gqbBuildFilterCondition sql "equals" vals = "" ∧
      gqbBuildFilterCondition sql "gt" vals = "" ∧
      gqbBuildFilterCondition sql "gte" vals = "" ∧
      gqbBuildFilterCondition sql "lt" vals = "" ∧
      gqbBuildFilterCondition sql "lte" vals = "") ∧
    (∀ sql : String, gqbBuildFilterCondition sql "in" [] = "") ∧
    (∀ (schema : CubeSchema) (f : GqbFilter) (rest : List GqbFilter)
        (tds : List GqbTimeDimension), gqbFilterConditionOpt schema f = none →
      gqbBuildWhereClause (f :: rest) tds schema = gqbBuildWhereClause rest tds schema) ∧
    ahBuildFilterCondition ⟨"users.role", "in", FilterValue.arr []⟩ = Except.ok "u.role IN ()" ∧
    gqbBuildSQL { gqbEmptyReq with measures := ["events.count"],
                                   filters := [⟨"users.role", "in", []⟩] }
        getSchema =
      Except.ok "SELECT COUNT(*) AS events_count FROM events e" := by
  refine ⟨?_, fun _ => rfl, ?_, rfl, rfl⟩
  · intro sql vals h
    rcases vals with - | ⟨v, - | ⟨w, rest⟩⟩
    · exact ⟨rfl, rfl, rfl, rfl, rfl⟩
    · simp at h
    · exact ⟨rfl, rfl, rfl, rfl, rfl⟩
  · intro schema f rest tds h
    simp [gqbBuildWhereClause, gqbWhereConditions, h]

/-- C3 (witness): the amended theorem applied to the two-value comparison and
the empty membership filter. -/
theorem c3_witness :
    gqbBuildFilterCondition "role" "equals" ["a", "b"] = "" ∧
    gqbBuildWhereClause [⟨"users.role", "equals", ["a", "b"]⟩] [] getSchema =
      gqbBuildWhereClause [] [] getSchema := by
  refine ⟨(c3_arity_amended.1 "role" ["a", "b"] (by decide)).1, ?_⟩
  exact c3_arity_amended.2.2.1 getSchema ⟨"users.role", "equals", ["a", "b"]⟩ [] [] (by rfl)

/-- C4 (counterexample): GenericQueryBuilder compiles the granularity quarter
(a member of the claimed supported set) to the raw, untruncated dimension
expression with no error, contradicting the claim that every granularity in
the set compiles to its truncation and everything else fails. -/
theorem c4_counterexample :
    gqbBuildSQL { gqbEmptyReq with measures := ["events.count"],
                                   timeDimensions := [⟨"time.date", "quarter", []⟩] }
        getSchema =
      Except.ok "SELECT COUNT(*) AS events_count, DATE(created_at) AS time_date_quarter FROM events e GROUP BY DATE(created_at)" := by
  rfl

/-- C4 (amended): `AnalyticsHandler.buildTimeDimension` maps each of the six
granularities to its truncation expression and fails, naming the granularity,
on anything else; `GenericQueryBuilder` truncates only day, week, month and
hour and silently falls back to the untruncated expression otherwise
(including quarter and year). -/
theorem c4_granularity_amended :
    (∀ d e : String, dimensionMap.lookup d = some e → e ≠ "" →
      ahBuildTimeDimension ⟨d, "hour"⟩ = Except.ok ("DATE_TRUNC('hour', " ++ e ++ ")") ∧
      ahBuildTimeDimension ⟨d, "day"⟩ = Except.ok ("DATE_TRUNC('day', " ++ e ++ ")") ∧
      ahBuildTimeDimension ⟨d, "week"⟩ = Except.ok ("DATE_TRUNC('week', " ++ e ++ ")") ∧
      ahBuildTimeDimension ⟨d, "month"⟩ = Except.ok ("DATE_TRUNC('month', " ++ e ++ ")") ∧
      ahBuildTimeDimension ⟨d, "quarter"⟩ = Except.ok ("DATE_TRUNC('quarter', " ++ e ++ ")") ∧
      ahBuildTimeDimension ⟨d, "year"⟩ = Except.ok ("DATE_TRUNC('year', " ++ e ++ ")") ∧
      (∀ g : String, g ∉ (["hour", "day", "week", "month", "quarter", "year"] : List String) →
        ahBuildTimeDimension ⟨d, g⟩ =
          Except.error ("unsupported time granularity: " ++ g))) ∧
    (∀ sql g : String, g ∉ (["day", "week", "month", "hour"] : List String) →
      gqbTimeSql sql g = sql) := by
  constructor
  · intro d e h he
    refine ⟨?_, ?_, ?_, ?_, ?_, ?_, ?_⟩ <;>
      first
      | (intro g hg
         simp only [List.mem_cons, List.not_mem_nil, or_false, not_or] at hg
         obtain ⟨hg1, hg2, hg3, hg4, hg5, hg6⟩ := hg
         simp [ahBuildTimeDimension, h, he, hg1, hg2, hg3, hg4, hg5, hg6])
      | simp [ahBuildTimeDimension, h, he]
  · intro sql g hg
    simp only [List.mem_cons, List.not_mem_nil, or_false, not_or] at hg
    obtain ⟨hg1, hg2, hg3, hg4⟩ := hg
    simp [gqbTimeSql, hg1, hg2, hg3, hg4]

/-- C4 (witness): the amended theorem applied to the time.date dimension with
the quarter and an unsupported granularity, and to the GenericQueryBuilder
fallback at quarter. -/
theorem c4_witness :
    ahBuildTimeDimension ⟨"time.date", "quarter"⟩ =
      Except.ok "DATE_TRUNC('quarter', DATE(s.start_time))" ∧
    ahBuildTimeDimension ⟨"time.date", "banana"⟩ =
      Except.error "unsupported time granularity: banana" ∧
    gqbTimeSql "DATE(created_at)" "quarter" = "DATE(created_at)" := by
  have h := c4_granularity_amended.1 "time.date" "DATE(s.start_time)" (by rfl) (by decide)
  refine ⟨h.2.2.2.2.1.trans (by rfl), ?_, ?_⟩
  · exact (h.2.2.2.2.2.2 "banana" (by decide)).trans (by rfl)
  · exact c4_granularity_amended.2 "DATE(created_at)" "quarter" (by decide)

set_option maxRecDepth 4000 in
/-- C6 (counterexample): a GenericQueryBuilder request with a time dimension
and no explicit order list compiles to a query with no ORDER BY clause at
all, contradicting the claim that such requests default to ordering by time
ascending. -/
theorem c6_counterexample :
    gqbBuildSQL { gqbEmptyReq with measures := ["events.count"],
                                   timeDimensions := [⟨"time.date", "day", []⟩] }
        getSchema =
      Except.ok "SELECT COUNT(*) AS events_count, DATE(DATE(created_at)) AS time_date_day FROM events e GROUP BY DATE(DATE(created_at))" ∧
    ¬ "ORDER BY".data <:+: "SELECT COUNT(*) AS events_count, DATE(DATE(created_at)) AS time_date_day FROM events e GROUP BY DATE(DATE(created_at))".data := by
  exact ⟨rfl, by decide⟩

/-- C6 (amended): AnalyticsHandler orders by time ascending exactly when a
time dimension is present (it supports no explicit order list), while
GenericQueryBuilder renders only the explicit order list and never defaults
to a time ordering when that list is empty. -/
theorem c6_order_by_amended :
    (∀ td : AhTimeDimension, ahOrderByClause (some td) = "ORDER BY time ASC") ∧
    ahOrderByClause none = "" ∧
    gqbBuildOrderByClause [] = "" ∧
    ahBuildQuery { ahEmptyReq with measures := ["sessions.count"],
                                   timeDimension := some ⟨"time.date", "day"⟩ } =
      Except.ok "SELECT COUNT(s.id) as \"sessions.count\", DATE_TRUNC('day', DATE(s.start_time)) as \"time\" FROM sessions s GROUP BY DATE_TRUNC('day', DATE(s.start_time)) ORDER BY time ASC" ∧
    ahBuildQuery { ahEmptyReq with measures := ["sessions.count"] } =
      Except.ok "SELECT COUNT(s.id) as \"sessions.count\" FROM sessions s" :=
  ⟨fun _ => rfl, rfl, rfl, rfl, rfl⟩

/-- No measure expression of the fixed schema begins with the character D
(they are COUNT, AVG and SUM aggregates), while truncation expressions do. -/
theorem measure_sql_head :
    ∀ md ∈ getSchema.measures.map Prod.snd, md.SQL.data.head? ≠ some 'D' := by decide

/-- In the fixed schema, no dimension expression equals a measure
expression. -/
theorem dim_measure_sql_ne :
    ∀ dd ∈ getSchema.dimensions.map Prod.snd,
      ∀ md ∈ getSchema.measures.map Prod.snd, dd.SQL ≠ md.SQL := by decide

/-- A GenericQueryBuilder time expression either begins with D (one of the
DATE/DATE_TRUNC forms) or is the raw dimension expression. -/
theorem gqbTimeSql_head (sql g : String) :
    (gqbTimeSql sql g).data.head? = some 'D' ∨ gqbTimeSql sql g = sql := by
  unfold gqbTimeSql
  split_ifs
  · exact Or.inl rfl
  · exact Or.inl rfl
  · exact Or.inl rfl
  · exact Or.inl rfl
  · exact Or.inr rfl

set_option maxRecDepth 4000 in
/-- C7: the GROUP BY entry list is exactly the resolved dimension expressions
in selection order followed by the time expressions, never a measure
expression of the schema, in both builders; a measures-only request compiles
with no GROUP BY clause. -/
theorem c7_group_by :
    (∀ (dims : List String) (tds : List GqbTimeDimension) (schema : CubeSchema),
      gqbGroupByEntries dims tds schema =
        dims.filterMap (fun d => (lookupDimension schema d).map (fun dd => dd.SQL)) ++
        tds.filterMap (fun td =>
          (lookupDimension schema td.dimension).map
            (fun dd => gqbTimeSql dd.SQL td.granularity))) ∧
    (∀ (dims : List String) (tds : List GqbTimeDimension) (g : String),
      g ∈ gqbGroupByEntries dims tds getSchema →
      ∀ (m : String) (md : MeasureDefinition), lookupMeasure getSchema m = some md →
        g ≠ md.SQL) ∧
    (∀ (dims : List String) (td : Option AhTimeDimension),
      ahGroupByEntries dims td =
        dims.filterMap (fun d => dimensionMap.lookup d) ++
        (match td with
         | some t =>
           [match ahBuildTimeDimension t with
            | Except.ok e => e
            | Except.error _ => ""]
         | none => [])) ∧
    (gqbBuildSQL { gqbEmptyReq with measures := ["sessions.count"] } getSchema =
      Except.ok "SELECT COUNT(*) AS sessions_count FROM sessions s" ∧
     ¬ "GROUP BY".data <:+: "SELECT COUNT(*) AS sessions_count FROM sessions s".data) ∧
    ahBuildQuery { ahEmptyReq with measures := ["sessions.count"] } =
      Except.ok "SELECT COUNT(s.id) as \"sessions.count\" FROM sessions s" := by
  refine ⟨gqbGroupByEntries_eq, ?_, ahGroupByEntries_eq, ⟨rfl, by decide⟩, rfl⟩
  intro dims tds g hg m md hm
  have h2 : md ∈ getSchema.measures.map Prod.snd := lookup_mem_snd _ _ _ hm
  rw [gqbGroupByEntries_eq] at hg
  rcases List.mem_append.1 hg with h | h
  · obtain ⟨d, -, hd⟩ := List.mem_filterMap.1 h
    obtain ⟨dd, hdd, hgd⟩ := Option.map_eq_some'.1 hd
    have h1 : dd ∈ getSchema.dimensions.map Prod.snd := lookup_mem_snd _ _ _ hdd
    rw [← hgd]
    exact dim_measure_sql_ne dd h1 md h2
  · obtain ⟨td, -, htd⟩ := List.mem_filterMap.1 h
    obtain ⟨dd, hdd, hgd⟩ := Option.map_eq_some'.1 htd
    rcases gqbTimeSql_head dd.SQL td.granularity with hh | hh
    · intro he
      apply measure_sql_head md h2
      rw [← he, ← hgd]
      exact hh
    · rw [← hgd, hh]
      have h1 : dd ∈ getSchema.dimensions.map Prod.snd := lookup_mem_snd _ _ _ hdd
      exact dim_measure_sql_ne dd h1 md h2

/-- C7 (witness): the GROUP BY theorem applied to a request grouping by
users.role: the single entry is the role expression, which differs from the
events.count aggregate. -/
theorem c7_witness :
    ("role" : String) ∈ gqbGroupByEntries ["users.role"] [] getSchema ∧
    ("role" : String) ≠ "COUNT(*)" := by
  refine ⟨by decide, ?_⟩
  exact c7_group_by.2.1 ["users.role"] [] "role" (by decide) "events.count"
    ⟨"count", "COUNT(*)", "events", "Total number of events"⟩ (by rfl)

/-- C10: in GenericQueryBuilder, a filter with an unsupported operator
(including ne) or a wrong-arity value list renders the empty condition, which
buildWhereClause silently omits, and compilation still succeeds whenever some
valid measure is selected — no error is raised for the invalid filter. -/
theorem c10_silent_filter_drop :
    (∀ (sql op : String) (vals : List String),
      op ∉ (["equals", "in", "gt", "gte", "lt", "lte", "contains"] : List String) →
      gqbBuildFilterCondition sql op vals = "") ∧
    (∀ (sql : String) (vals : List String), vals.length ≠ 1 →
      gqbBuildFilterCondition sql "equals" vals = "") ∧
    (∀ sql : String, gqbBuildFilterCondition sql "in" [] = "") ∧
    (∀ (sql : String) (vals : List String), gqbBuildFilterCondition sql "ne" vals = "") ∧
    (∀ (schema : CubeSchema) (f : GqbFilter) (rest : List GqbFilter)
        (tds : List GqbTimeDimension), gqbFilterConditionOpt schema f = none →
      gqbWhereConditions (f :: rest) tds schema = gqbWhereConditions rest tds schema) ∧
    (∀ (req : GqbRequest) (schema : CubeSchema) (m : String) (md : MeasureDefinition),
      m ∈ req.measures → lookupMeasure schema m = some md →
      ∃ s, gqbBuildSQL req schema = Except.ok s) := by
  refine ⟨?_, ?_, fun _ => rfl, fun _ _ => rfl, ?_, ?_⟩
  · intro sql op vals hop
    simp only [List.mem_cons, List.not_mem_nil, or_false, not_or] at hop
    obtain ⟨h1, h2, h3, h4, h5, h6, h7⟩ := hop
    simp [gqbBuildFilterCondition, h1, h2, h3, h4, h5, h6, h7]
  · intro sql vals h
    rcases vals with - | ⟨v, - | ⟨w, rest⟩⟩
    · rfl
    · simp at h
    · rfl
  · intro schema f rest tds h
    simp [gqbWhereConditions, h]
  · intro req schema m md hmem hlook
    have hne : gqbMeasureSelects req.measures schema ≠ [] := by
      rw [gqbMeasureSelects_eq]
      intro hnil
      have hmm := List.filterMap_eq_nil_iff.1 hnil m hmem
      rw [hlook] at hmm
      simp at hmm
    simp only [gqbBuildSQL]
    split
    · next hzero =>
      exfalso
      apply hne
      have hz := List.length_eq_zero.1 hzero
      exact (List.append_eq_nil.1 (List.append_eq_nil.1 hz).1).1
    · exact ⟨_, rfl⟩

/-- C10 (witness): the theorem applied to a request with a valid measure and
an ne filter: the condition renders empty and compilation succeeds. -/
theorem c10_witness :
    gqbBuildFilterCondition "role" "ne" ["x"] = "" ∧
    ∃ s, gqbBuildSQL { gqbEmptyReq with measures := ["events.count"],
                                        filters := [⟨"users.role", "ne", ["x"]⟩] }
      getSchema = Except.ok s := by
  refine ⟨c10_silent_filter_drop.2.2.2.1 "role" ["x"], ?_⟩
  exact c10_silent_filter_drop.2.2.2.2.2 _ getSchema "events.count"
    ⟨"count", "COUNT(*)", "events", "Total number of events"⟩ (by decide) (by rfl)

end Reporting

